import Mathlib

/-!
Verification of `src/user/system/LoadBalancerManager.ts` (caprover).

Shallow embedding: the stateful reload coordinator becomes explicit state
passing over `CoordState`; the filesystem touched by the atomic swap becomes
a record of the three sidecar files; JavaScript string operations
(`split`, `trim`, `Number`) are embedded as executable Lean functions;
promise pipelines become pure functions returning the observable outcome.
-/

namespace LoadBalancerManager

/-! ## Reload coordinator (lines 33-50, 58-93, 177-193)

State of the `LoadBalancerManager` instance relevant to reload coordination.
The JS array `requestedReloadPromises` (`push` appends at the end, `pop`
removes from the end) is modelled as a list with the most recently enqueued
request at the HEAD: `push` is `List.cons` and `pop` takes the head.
Requests are identified by a `Nat` id; a request's promise is modelled by
where the id ends up:

* `running`: the request currently held by the in-flight pipeline (the
  closure variable `q` of `consumeQueueIfAnyInNginxReloadQueue`);
* `settled`: ids whose promise has been resolved (`true`) or rejected
  (`false`), most recent first;
* `dropped`: ids that were popped from the queue while `reloadInProcess`
  was true (the `Bouncing off` branch, lines 80-83): the source returns
  without re-queuing them and without settling their promise;
* `executions`: how many times the reload pipeline was started
  (line 87 onward).
-/
structure CoordState where
  queue : List Nat
  reloadInProcess : Bool
  running : Option Nat
  settled : List (Nat × Bool)
  dropped : List Nat
  executions : Nat
deriving DecidableEq, Repr

/-- Lines 71-93: pop one request; if none, return; if a reload is in
process, bounce off (the popped request is NOT restored to the queue and
its promise is never settled); otherwise lock and start the pipeline. -/
def consumeQueueIfAnyInNginxReloadQueue (s : CoordState) : CoordState :=
  match s.queue with
  | [] => s
  | q :: rest =>
      if s.reloadInProcess then
        { s with queue := rest, dropped := q :: s.dropped }
      else
        { s with
            queue := rest
            reloadInProcess := true
            running := some q
            executions := s.executions + 1 }

/-- Lines 58-69: enqueue the request and immediately attempt to consume. -/
def rePopulateNginxConfigFile (s : CoordState) (id : Nat) : CoordState :=
  consumeQueueIfAnyInNginxReloadQueue { s with queue := id :: s.queue }

/-- Lines 180-192: the pipeline of the running request completes with
`success` (the `.then` branch resolves, the `.catch` branch rejects); in
both branches the source clears `reloadInProcess`, settles the promise and
immediately calls `consumeQueueIfAnyInNginxReloadQueue` again. -/
def finishPipeline (s : CoordState) (success : Bool) : CoordState :=
  match s.running with
  | none => s
  | some q =>
      consumeQueueIfAnyInNginxReloadQueue
        { s with
            reloadInProcess := false
            running := none
            settled := (q, success) :: s.settled }

/-- Iterated pipeline completions with the given outcomes. -/
def finishRepeatedly (s : CoordState) (bs : List Bool) : CoordState :=
  bs.foldl finishPipeline s

/-- The idle empty coordinator produced by the constructor (lines 42-50). -/
def initialCoordState : CoordState :=
  { queue := []
    reloadInProcess := false
    running := none
    settled := []
    dropped := []
    executions := 0 }

/-- Two `rePopulateNginxConfigFile` calls, the second arriving while the
first reload is still in process, then the first pipeline completes
successfully. -/
def twoConcurrentReloads : CoordState :=
  finishPipeline
    (rePopulateNginxConfigFile (rePopulateNginxConfigFile initialCoordState 1) 2)
    true

/-- Draining lemma: from a running coordinator with pending list `ids`
(most recent first) and no further arrivals, each pipeline completion
settles the running request and immediately starts the most recently
enqueued pending one, regardless of the completion outcomes, until the
pending list is empty. -/
theorem finishRepeatedly_drains (ids : List Nat) (bs : List Bool)
    (h : bs.length = ids.length) (r : Nat) (b : Bool)
    (st : List (Nat × Bool)) (dr : List Nat) (e : Nat) :
    finishRepeatedly ⟨ids, true, some r, st, dr, e⟩ (b :: bs) =
      ⟨[], false, none, (ids.zip bs).reverse ++ (r, b) :: st, dr,
        e + ids.length⟩ := by
  induction ids generalizing bs r b st dr e with
  | nil =>
      match bs, h with
      | [], _ =>
          simp [finishRepeatedly, finishPipeline,
            consumeQueueIfAnyInNginxReloadQueue]
  | cons i ids ih =>
      match bs, h with
      | b' :: bs', h =>
          have h' : bs'.length = ids.length := by
            simpa using h
          have step :
              finishPipeline ⟨i :: ids, true, some r, st, dr, e⟩ b =
                ⟨ids, true, some i, (r, b) :: st, dr, e + 1⟩ := by
            simp [finishPipeline, consumeQueueIfAnyInNginxReloadQueue]
          calc finishRepeatedly ⟨i :: ids, true, some r, st, dr, e⟩
                  (b :: b' :: bs')
              = finishRepeatedly ⟨ids, true, some i, (r, b) :: st, dr, e + 1⟩
                  (b' :: bs') := by
                simp [finishRepeatedly, step]
            _ = ⟨[], false, none,
                  (ids.zip bs').reverse ++ (i, b') :: (r, b) :: st, dr,
                  (e + 1) + ids.length⟩ := ih bs' h' i b' ((r, b) :: st) dr (e + 1)
            _ = ⟨[], false, none,
                  ((i :: ids).zip (b' :: bs')).reverse ++ (r, b) :: st, dr,
                  e + (i :: ids).length⟩ := by
                simp [List.zip_cons_cons]
                omega

/-- C1: the queue bug evaluated. Two `rePopulateNginxConfigFile` calls from
idle, the second while the first reload is in process: the second request is
popped in the `reloadInProcess` branch and discarded, so only ONE pipeline
executes, request 2's promise is never resolved nor rejected (it is in
`dropped`, not in `settled`), yet the coordinator ends idle with an empty
pending collection.  This contradicts the claim that N concurrent requests
while idle yield exactly N pipeline executions with every future settled,
and that a request enqueued while a reload is executing is drained after the
current job completes. -/
theorem rePopulateNginxConfigFile_drops_request_enqueued_while_busy :
    twoConcurrentReloads.executions = 1 ∧
    twoConcurrentReloads.settled = [(1, true)] ∧
    twoConcurrentReloads.dropped = [2] ∧
    twoConcurrentReloads.queue = [] ∧
    twoConcurrentReloads.reloadInProcess = false ∧
    twoConcurrentReloads.running = none := by
  decide

/-- C6: on each drain attempt from a non-busy coordinator exactly one
pending request is taken, the most recently enqueued one, and processed
(LIFO order); a drain attempt with no pending request leaves the
coordinator idle; and from a running coordinator with pending list `ids`,
pipeline completions — with arbitrary success/failure outcomes `b :: bs`,
so a rejection never stops the draining — settle the running request and
then every pending request in most-recently-enqueued-first order, looping
until the pending collection is empty and the coordinator is idle. -/
theorem consumeQueue_lifo_and_drains_regardless_of_outcome
    (s : CoordState) (q : Nat) (rest : List Nat)
    (hq : s.queue = q :: rest) (hb : s.reloadInProcess = false)
    (s' : CoordState) (he : s'.queue = [])
    (ids : List Nat) (bs : List Bool) (h : bs.length = ids.length)
    (r : Nat) (b : Bool) (e : Nat) :
    consumeQueueIfAnyInNginxReloadQueue s =
      { s with
          queue := rest
          reloadInProcess := true
          running := some q
          executions := s.executions + 1 } ∧
    consumeQueueIfAnyInNginxReloadQueue s' = s' ∧
    finishRepeatedly ⟨ids, true, some r, [], [], e⟩ (b :: bs) =
      ⟨[], false, none, (ids.zip bs).reverse ++ [(r, b)], [],
        e + ids.length⟩ := by
  refine ⟨?_, ?_, ?_⟩
  · simp [consumeQueueIfAnyInNginxReloadQueue, hq, hb]
  · simp [consumeQueueIfAnyInNginxReloadQueue, he]
  · simpa using finishRepeatedly_drains ids bs h r b [] [] e

/-- Witness for C6 at a concrete coordinator state: requests 1,2 pending
and idle; requests 5,4 pending while 9 runs, outcomes reject-then-resolve. -/
theorem consumeQueue_lifo_witness :
    (⟨[1, 2], false, none, [], [], 0⟩ : CoordState).queue = [1, 2] ∧
    (⟨[1, 2], false, none, [], [], 0⟩ : CoordState).reloadInProcess = false ∧
    (⟨[], false, some 7, [], [], 3⟩ : CoordState).queue = [] ∧
    ([false, true] : List Bool).length = ([5, 4] : List Nat).length ∧
    (consumeQueueIfAnyInNginxReloadQueue ⟨[1, 2], false, none, [], [], 0⟩ =
        ⟨[2], true, some 1, [], [], 1⟩ ∧
      consumeQueueIfAnyInNginxReloadQueue ⟨[], false, some 7, [], [], 3⟩ =
        ⟨[], false, some 7, [], [], 3⟩ ∧
      finishRepeatedly ⟨[5, 4], true, some 9, [], [], 0⟩ [true, false, true] =
        ⟨[], false, none, [(4, true), (5, false), (9, true)], [], 2⟩) := by
  refine ⟨rfl, rfl, rfl, by decide, ?_⟩
  have h := consumeQueue_lifo_and_drains_regardless_of_outcome
    ⟨[1, 2], false, none, [], [], 0⟩ 1 [2] rfl rfl
    ⟨[], false, some 7, [], [], 3⟩ rfl
    [5, 4] [false, true] (by decide) 9 true 0
  simpa using h

/-! ## Atomic config swap (lines 97-99, 162-176 and 388-390, 451-465)

The three sidecar files of one configuration namespace
(`<base>.fut`, `<base>.bak`, `<base>.conf`); `none` means the file does
not exist, `some c` that it exists with content `c`. -/
structure ConfFiles where
  fut : Option String
  bak : Option String
  conf : Option String
deriving DecidableEq, Repr

/-- `fs.outputFile(FUTURE, content)`: write the full new content to the
`.fut` sidecar. -/
def outputFileFuture (content : String) (fs : ConfFiles) : ConfFiles :=
  { fs with fut := some content }

/-- `fs.remove(BACKUP)`: delete any stale `.bak` sidecar (succeeds whether
or not it exists). -/
def removeBackup (fs : ConfFiles) : ConfFiles :=
  { fs with bak := none }

/-- `fs.ensureFile(CONFIG)`: ensure the `.conf` target exists, creating it
empty if missing. -/
def ensureConfig (fs : ConfFiles) : ConfFiles :=
  { fs with conf := some (fs.conf.getD "") }

/-- `fs.renameSync(CONFIG, BACKUP)`: atomic rename of the `.conf` target to
the `.bak` sidecar (the source is present thanks to `ensureFile`). -/
def renameConfigToBackup (fs : ConfFiles) : ConfFiles :=
  { fs with bak := fs.conf, conf := none }

/-- `fs.renameSync(FUTURE, CONFIG)`: atomic rename of the `.fut` sidecar to
the `.conf` target. -/
def renameFutureToConfig (fs : ConfFiles) : ConfFiles :=
  { fs with conf := fs.fut, fut := none }

/-- Lines 162-176: the per-namespace swap steps of
`consumeQueueIfAnyInNginxReloadQueue`, in source order. -/
def nginxConfSwapSteps (content : String) : List (ConfFiles → ConfFiles) :=
  [outputFileFuture content, removeBackup, ensureConfig,
    renameConfigToBackup, renameFutureToConfig]

/-- Lines 451-465: the root-config swap steps of `createRootConfFile`, in
source order. -/
def rootConfSwapSteps (content : String) : List (ConfFiles → ConfFiles) :=
  [outputFileFuture content, removeBackup, ensureConfig,
    renameConfigToBackup, renameFutureToConfig]

/-- Run a sequence of filesystem steps, failing at step index `failAt`
(0-based) when given: the failing step performs no mutation and the run
aborts — the promise chain's `.catch` — returning the filesystem as it
stood at the failure.  `none` injects no failure. -/
def runSteps (steps : List (ConfFiles → ConfFiles)) (failAt : Option Nat)
    (fs : ConfFiles) : Except ConfFiles ConfFiles :=
  match steps, failAt with
  | [], _ => .ok fs
  | _ :: _, some 0 => .error fs
  | st :: rest, some (n + 1) => runSteps rest (some n) (st fs)
  | st :: rest, none => runSteps rest none (st fs)

/-- C5: both config swaps (per-namespace and root) perform exactly the five
steps write-`.fut`, delete-`.bak`, ensure-`.conf`, rename `.conf`→`.bak`,
rename `.fut`→`.conf`, in that order (the two step lists are equal), and a
run with no failure succeeds with `.conf` holding exactly the new content,
`.bak` holding exactly the prior `.conf` content (the empty content when
the target had to be created), and the `.fut` sidecar consumed. -/
theorem configSwap_success_final_state (fs : ConfFiles) (content : String) :
    nginxConfSwapSteps content = rootConfSwapSteps content ∧
    runSteps (nginxConfSwapSteps content) none fs =
      .ok ⟨none, some (fs.conf.getD ""), some content⟩ ∧
    runSteps (rootConfSwapSteps content) none fs =
      .ok ⟨none, some (fs.conf.getD ""), some content⟩ := by
  refine ⟨rfl, ?_, ?_⟩ <;>
    simp [nginxConfSwapSteps, rootConfSwapSteps, runSteps, outputFileFuture,
      removeBackup, ensureConfig, renameConfigToBackup, renameFutureToConfig]

/-- C4 counterexample: a swap run over a namespace whose `.bak` holds
`"oldbak"` that fails at step index 3 (the `.conf`→`.bak` rename, after
`fs.remove(BACKUP)` already ran) aborts with the prior `.bak` deleted and
no replacement produced — contradicting the claim that no failing run
deletes the previously existing `.bak` without producing a replacement. -/
theorem failing_swap_deletes_backup :
    runSteps (nginxConfSwapSteps "new") (some 3)
        ⟨none, some "oldbak", some "cur"⟩ =
      .error ⟨some "new", none, some "cur"⟩ := by
  rfl

/-- C4 amended: a failing swap run always aborts (no retry), and the fate
of the prior `.bak` depends on where the failure hits: before the
`remove(BACKUP)` step (indices 0-1) the prior `.bak` is intact; at the
`ensureFile` or `.conf`→`.bak` rename step (indices 2-3) the prior `.bak`
has already been deleted and no replacement exists; at the final rename
(index 4) `.bak` holds the prior `.conf` content as replacement. -/
theorem failing_swap_backup_characterization (fs : ConfFiles)
    (content : String) (k : Nat) (hk : k < 5) :
    ∃ fsErr, runSteps (nginxConfSwapSteps content) (some k) fs =
        .error fsErr ∧
      fsErr.bak = (if k ≤ 1 then fs.bak
        else if k ≤ 3 then none
        else some (fs.conf.getD "")) := by
  interval_cases k <;>
    exact ⟨_, rfl, by
      simp [outputFileFuture, removeBackup, ensureConfig,
        renameConfigToBackup, renameFutureToConfig]⟩

/-- Witness for the amended C4 at the failure index 2 (`ensureFile`) on a
concrete namespace: the run aborts and the prior `.bak` is gone. -/
theorem failing_swap_backup_witness :
    (2 : Nat) < 5 ∧
    ∃ fsErr, runSteps (nginxConfSwapSteps "new") (some 2)
        ⟨none, some "oldbak", some "cur"⟩ = .error fsErr ∧
      fsErr.bak = (if (2 : Nat) ≤ 1 then some "oldbak"
        else if (2 : Nat) ≤ 3 then none
        else some "cur") := by
  refine ⟨by decide, ?_⟩
  simpa using failing_swap_backup_characterization
    ⟨none, some "oldbak", some "cur"⟩ "new" 2 (by decide)

/-! ## Application definitions and the virtual-host builder
(lines 226-303 `getAppsServerConfig`, lines 110-133 render preparation) -/

/-- One custom domain attached to an app (elements of `webApp.customDomain`,
lines 277-297). -/
structure CustomDomain where
  publicDomain : String
  hasSsl : Bool
deriving DecidableEq, Repr

/-- Modelled from the spec: the `httpAuth` record of an application
definition; its declaration lives outside this source file.  Per the spec's
data model a credential pairs a user with an optional hashed password
(`basicAuthCredential` is `user:hashedPassword` when both are set); the
user name is a mandatory string of the record, the hashed password may be
absent.  `some ""` models a present-but-empty string, which is falsy in the
JavaScript truthiness test of line 243. -/
structure HttpAuth where
  user : String
  passwordHashed : Option String
deriving DecidableEq, Repr

/-- Modelled from the spec: the application-definition fields read by
`getAppsServerConfig` (the full app-definition type is declared outside
this source file).  `none` models an absent (undefined) field; for
`customNginxConfig`, `some ""` models the empty string, falsy in the
`webApp.customNginxConfig || defaultAppNginxConfig` test of line 259, and
for `containerHttpPort`, `some 0` models `0`, falsy in the
`webApp.containerHttpPort || 80` test of line 269. -/
structure AppDef where
  notExposeAsWebApp : Bool
  httpAuth : Option HttpAuth
  forceSsl : Bool
  websocketSupport : Bool
  customNginxConfig : Option String
  containerHttpPort : Option Nat
  customDomain : List CustomDomain
  hasDefaultSubDomainSsl : Bool
deriving DecidableEq, Repr

/-- One server block descriptor (`IServerBlockDetails`).  The fields the
builder leaves unassigned on the primary descriptor
(`staticWebRoot`, `customErrorPagesDirectory`, `crtPath`, `keyPath`,
`httpBasicAuthPath` — they are only assigned later, or on custom-domain
descriptors) are `Option String`, with `none` for `undefined`. -/
structure IServerBlockDetails where
  hasSsl : Bool
  publicDomain : String
  localDomain : String
  forceSsl : Bool
  websocketSupport : Bool
  containerHttpPort : Nat
  nginxConfigTemplate : String
  httpBasicAuth : String
  staticWebRoot : Option String
  customErrorPagesDirectory : Option String
  crtPath : Option String
  keyPath : Option String
  httpBasicAuthPath : Option String
deriving DecidableEq, Repr

/-- Lines 242-247:
`webApp.httpAuth && webApp.httpAuth.passwordHashed ? user + ':' + hashed : ''`
with JavaScript truthiness (`undefined` and the empty string are falsy). -/
def httpBasicAuthOf (a : AppDef) : String :=
  match a.httpAuth with
  | none => ""
  | some auth =>
      match auth.passwordHashed with
      | none => ""
      | some p => if p = "" then "" else auth.user ++ ":" ++ p

/-- Line 269: `webApp.containerHttpPort || 80` (0 and undefined are falsy). -/
def containerHttpPortOf (a : AppDef) : Nat :=
  match a.containerHttpPort with
  | none => 80
  | some p => if p = 0 then 80 else p

/-- Lines 258-259: `webApp.customNginxConfig || defaultAppNginxConfig`
(undefined and the empty string are falsy). -/
def nginxConfigTemplateOf (a : AppDef) (defaultAppNginxConfig : String) :
    String :=
  match a.customNginxConfig with
  | none => defaultAppNginxConfig
  | some c => if c = "" then defaultAppNginxConfig else c

/-- Lines 261-274: the primary (generated-subdomain) descriptor of an app.
`getServiceName` stands for
`dataStore.getAppsDataStore().getServiceName(appName)` (line 253-255),
a collaborator outside this source file. -/
def serverWithSubDomain (getServiceName : String → String)
    (defaultAppNginxConfig : String) (hasRootSsl : Bool)
    (rootDomain appName : String) (a : AppDef) : IServerBlockDetails :=
  { hasSsl := hasRootSsl && a.hasDefaultSubDomainSsl
    publicDomain := appName ++ "." ++ rootDomain
    localDomain := getServiceName appName
    forceSsl := a.forceSsl
    websocketSupport := a.websocketSupport
    containerHttpPort := containerHttpPortOf a
    nginxConfigTemplate := nginxConfigTemplateOf a defaultAppNginxConfig
    httpBasicAuth := httpBasicAuthOf a
    staticWebRoot := none
    customErrorPagesDirectory := none
    crtPath := none
    keyPath := none
    httpBasicAuthPath := none }

/-- Lines 284-296: the descriptor pushed for one custom domain `d`. -/
def customDomainServer (getServiceName : String → String)
    (defaultAppNginxConfig : String) (appName : String) (a : AppDef)
    (d : CustomDomain) : IServerBlockDetails :=
  { containerHttpPort := containerHttpPortOf a
    hasSsl := d.hasSsl
    forceSsl := a.forceSsl
    websocketSupport := a.websocketSupport
    publicDomain := d.publicDomain
    localDomain := getServiceName appName
    nginxConfigTemplate := nginxConfigTemplateOf a defaultAppNginxConfig
    staticWebRoot := some ""
    customErrorPagesDirectory := some ""
    httpBasicAuth := httpBasicAuthOf a
    crtPath := none
    keyPath := none
    httpBasicAuthPath := none }

/-- Lines 240-299: the descriptors pushed for one application: nothing if
`notExposeAsWebApp`, else the primary descriptor followed by one descriptor
per custom domain in stored order. -/
def appServers (getServiceName : String → String)
    (defaultAppNginxConfig : String) (hasRootSsl : Bool)
    (rootDomain appName : String) (a : AppDef) : List IServerBlockDetails :=
  if a.notExposeAsWebApp then []
  else
    serverWithSubDomain getServiceName defaultAppNginxConfig hasRootSsl
        rootDomain appName a ::
      a.customDomain.map
        (customDomainServer getServiceName defaultAppNginxConfig appName a)

/-- Lines 226-303: `getAppsServerConfig` over the app definitions in
iteration order (`Object.keys(apps).forEach`). -/
def getAppsServerConfig (getServiceName : String → String)
    (defaultAppNginxConfig : String) (hasRootSsl : Bool)
    (rootDomain : String) : List (String × AppDef) →
    List IServerBlockDetails
  | [] => []
  | (appName, a) :: rest =>
      appServers getServiceName defaultAppNginxConfig hasRootSsl rootDomain
          appName a ++
        getAppsServerConfig getServiceName defaultAppNginxConfig hasRootSsl
          rootDomain rest

/-- The constants of `CaptainConstants` (declared outside this source file)
consumed by the reload pipeline and by `init`. -/
structure NginxConstants where
  nginxStaticRootDir : String
  nginxDomainSpecificHtmlDir : String
  nginxDefaultHtmlDir : String
  letsEncryptEtcPathOnNginx : String
  letsEncryptEtcPath : String
  captainStaticFilesDir : String
  baseNginxConfigPath : String
  perAppNginxConfigPathBase : String
  nginxSharedPathOnNginx : String
  nginxSharedPathOnHost : String
  hostPathOfFakeCerts : String
deriving DecidableEq, Repr

/-- Lines 114-132 of `consumeQueueIfAnyInNginxReloadQueue`: the in-place
mutation applied to EVERY descriptor before it is handed to
`ejs.render(s.nginxConfigTemplate, { s: s })`: when `hasSsl`, the
certificate and key paths are filled in (`getSslCertPath`/`getSslKeyPath`,
lines 315-329, with the certbot collaborator's per-domain relative paths
`certRel`/`keyRel`); then `staticWebRoot` and `customErrorPagesDirectory`
are unconditionally overwritten with the domain-specific web root and the
default error-pages directory.  (The `httpBasicAuthPath` assignment of
lines 137-141 is independent of these fields and modelled with the auth
file writes below.) -/
def prepareServerForRender (K : NginxConstants)
    (certRel keyRel : String → String) (s : IServerBlockDetails) :
    IServerBlockDetails :=
  let s1 :=
    if s.hasSsl then
      { s with
          crtPath := some (K.letsEncryptEtcPathOnNginx ++
            certRel s.publicDomain)
          keyPath := some (K.letsEncryptEtcPathOnNginx ++
            keyRel s.publicDomain) }
    else s
  { s1 with
      staticWebRoot := some (K.nginxStaticRootDir ++
        K.nginxDomainSpecificHtmlDir ++ "/" ++ s.publicDomain)
      customErrorPagesDirectory := some (K.nginxStaticRootDir ++
        K.nginxDefaultHtmlDir) }

/-- Any nonempty-by-construction path of the render preparation. -/
theorem append_slash_append_ne_empty (a b c : String) :
    a ++ b ++ "/" ++ c ≠ "" := by
  intro h
  have := congrArg String.length h
  simp [String.length_append] at this
  exact absurd this.1.2 (by decide)

/-- C7: the descriptor's `httpBasicAuth` is `user + ":" + hashedPassword`
exactly when the `httpAuth` record is present with a set (nonempty) hashed
password, and the empty string otherwise: when `httpAuth` is absent
altogether, when only the user is set (no hashed password), and when the
hashed password is present but empty. -/
theorem httpBasicAuthOf_spec (a : AppDef) :
    (∀ u p, a.httpAuth = some ⟨u, some p⟩ → p ≠ "" →
      httpBasicAuthOf a = u ++ ":" ++ p) ∧
    (a.httpAuth = none → httpBasicAuthOf a = "") ∧
    (∀ u, a.httpAuth = some ⟨u, none⟩ → httpBasicAuthOf a = "") ∧
    (∀ u, a.httpAuth = some ⟨u, some ""⟩ → httpBasicAuthOf a = "") := by
  refine ⟨?_, ?_, ?_, ?_⟩
  · intro u p h hp
    simp [httpBasicAuthOf, h, hp]
  · intro h
    simp [httpBasicAuthOf, h]
  · intro u h
    simp [httpBasicAuthOf, h]
  · intro u h
    simp [httpBasicAuthOf, h]

/-- Sample application used to instantiate the universally quantified
theorems: exposed as a web app, basic auth `joe`/`hash`, one custom
domain `www.example.com` with its own SSL on. -/
def exampleApp : AppDef :=
  { notExposeAsWebApp := false
    httpAuth := some ⟨"joe", some "hash"⟩
    forceSsl := true
    websocketSupport := false
    customNginxConfig := none
    containerHttpPort := some 3000
    customDomain := [⟨"www.example.com", true⟩]
    hasDefaultSubDomainSsl := true }

/-- Witness for C7 on `exampleApp` (both credential parts set). -/
theorem httpBasicAuthOf_witness :
    exampleApp.httpAuth = some ⟨"joe", some "hash"⟩ ∧ ("hash" : String) ≠ "" ∧
    httpBasicAuthOf exampleApp = "joe" ++ ":" ++ "hash" := by
  refine ⟨rfl, by decide, ?_⟩
  exact (httpBasicAuthOf_spec exampleApp).1 "joe" "hash" rfl (by decide)

/-- C8: the number of descriptors returned by `getAppsServerConfig` is the
sum, over the applications not flagged `notExposeAsWebApp`, of one plus the
number of custom domains of that application. -/
theorem getAppsServerConfig_length (getServiceName : String → String)
    (defaultAppNginxConfig : String) (hasRootSsl : Bool) (rootDomain : String)
    (apps : List (String × AppDef)) :
    (getAppsServerConfig getServiceName defaultAppNginxConfig hasRootSsl
        rootDomain apps).length =
      ((apps.filter (fun p => !p.2.notExposeAsWebApp)).map
        (fun p => 1 + p.2.customDomain.length)).sum := by
  induction apps with
  | nil => rfl
  | cons hd tl ih =>
      obtain ⟨appName, a⟩ := hd
      by_cases h : a.notExposeAsWebApp
      · simp [getAppsServerConfig, appServers, h, ih]
      · simp [getAppsServerConfig, appServers, h, ih]
        omega

/-- C2 counterexample inputs: the full pipeline for `exampleApp`, as the
reload job runs it — build the descriptor list, then apply the per-server
mutation of lines 114-132 that precedes every `ejs.render` call. -/
def exampleConstants : NginxConstants :=
  { nginxStaticRootDir := "/usr/share/nginx"
    nginxDomainSpecificHtmlDir := "/special"
    nginxDefaultHtmlDir := "/default"
    letsEncryptEtcPathOnNginx := "/letsencrypt/etc"
    letsEncryptEtcPath := "/captain/letsencrypt/etc"
    captainStaticFilesDir := "/captain/data/nginx"
    baseNginxConfigPath := "/captain/nginx/nginx.conf"
    perAppNginxConfigPathBase := "/captain/nginx/conf.d"
    nginxSharedPathOnNginx := "/nginx-shared"
    nginxSharedPathOnHost := "/captain/nginx/shared"
    hostPathOfFakeCerts := "/captain/generated/nginx/fake-certs-self-signed" }

/-- The descriptors `exampleApp` contributes, as seen by the renderer. -/
def exampleRenderedServers : List IServerBlockDetails :=
  (appServers (fun n => "srv-captain--" ++ n) "DEFAULT_TEMPLATE" true
      "root.example.com" "myapp" exampleApp).map
    (prepareServerForRender exampleConstants
      (fun d => "/live/" ++ d ++ "/fullchain.pem")
      (fun d => "/live/" ++ d ++ "/privkey.pem"))

/-- C2 counterexample: the custom-domain descriptor of `exampleApp` that is
actually passed to the template renderer carries
`staticWebRoot = "/usr/share/nginx/special/www.example.com"` and
`customErrorPagesDirectory = "/usr/share/nginx/default"` — both nonempty —
because the reload pipeline overwrites those two fields on every
descriptor before rendering; the claim that the renderer sees them empty
on custom-domain descriptors is false. -/
theorem customDomain_renderer_sees_nonempty_staticWebRoot :
    exampleRenderedServers.map
        (fun s => (s.staticWebRoot, s.customErrorPagesDirectory)) =
      [(some "/usr/share/nginx/special/myapp.root.example.com",
          some "/usr/share/nginx/default"),
        (some "/usr/share/nginx/special/www.example.com",
          some "/usr/share/nginx/default")] ∧
    (some "/usr/share/nginx/special/www.example.com" : Option String) ≠
      some "" := by
  exact ⟨rfl, by decide⟩

/-- C2 amended: for every exposed application, `getAppsServerConfig` emits
the primary descriptor followed by one descriptor per custom domain; each
custom-domain descriptor reuses the primary's `localDomain`,
`httpBasicAuth`, `nginxConfigTemplate` and `containerHttpPort`, carries the
custom domain's own `hasSsl` flag, and is EMITTED with empty
`staticWebRoot` and `customErrorPagesDirectory` (the primary leaves them
unassigned); however, before rendering, the reload pipeline overwrites
both fields on every descriptor — custom-domain ones included — with the
domain-specific web root (never empty) and the default error-pages
directory, so the renderer does not see the empty values. -/
theorem customDomainServer_fields (getServiceName : String → String)
    (defaultAppNginxConfig : String) (hasRootSsl : Bool)
    (rootDomain appName : String) (a : AppDef)
    (h : a.notExposeAsWebApp = false) (K : NginxConstants)
    (certRel keyRel : String → String) :
    appServers getServiceName defaultAppNginxConfig hasRootSsl rootDomain
        appName a =
      serverWithSubDomain getServiceName defaultAppNginxConfig hasRootSsl
          rootDomain appName a ::
        a.customDomain.map
          (customDomainServer getServiceName defaultAppNginxConfig appName
            a) ∧
    (∀ d ∈ a.customDomain,
      let c := customDomainServer getServiceName defaultAppNginxConfig
        appName a d
      let primary := serverWithSubDomain getServiceName
        defaultAppNginxConfig hasRootSsl rootDomain appName a
      c.localDomain = primary.localDomain ∧
      c.httpBasicAuth = primary.httpBasicAuth ∧
      c.nginxConfigTemplate = primary.nginxConfigTemplate ∧
      c.containerHttpPort = primary.containerHttpPort ∧
      c.hasSsl = d.hasSsl ∧
      c.staticWebRoot = some "" ∧
      c.customErrorPagesDirectory = some "" ∧
      primary.staticWebRoot = none ∧
      primary.customErrorPagesDirectory = none) ∧
    (∀ s : IServerBlockDetails,
      (prepareServerForRender K certRel keyRel s).staticWebRoot =
        some (K.nginxStaticRootDir ++ K.nginxDomainSpecificHtmlDir ++ "/" ++
          s.publicDomain) ∧
      (prepareServerForRender K certRel keyRel s).customErrorPagesDirectory =
        some (K.nginxStaticRootDir ++ K.nginxDefaultHtmlDir) ∧
      (prepareServerForRender K certRel keyRel s).staticWebRoot ≠
        some "") := by
  refine ⟨by simp [appServers, h], ?_, ?_⟩
  · intro d _
    exact ⟨rfl, rfl, rfl, rfl, rfl, rfl, rfl, rfl, rfl⟩
  · intro s
    refine ⟨?_, ?_, ?_⟩
    · by_cases hs : s.hasSsl <;> simp [prepareServerForRender, hs]
    · by_cases hs : s.hasSsl <;> simp [prepareServerForRender, hs]
    · by_cases hs : s.hasSsl <;>
        simp [prepareServerForRender, hs,
          append_slash_append_ne_empty]

/-- Witness for the amended C2 on `exampleApp` and its custom domain. -/
theorem customDomainServer_fields_witness :
    exampleApp.notExposeAsWebApp = false ∧
    appServers (fun n => "srv-captain--" ++ n) "DEFAULT_TEMPLATE" true
        "root.example.com" "myapp" exampleApp =
      serverWithSubDomain (fun n => "srv-captain--" ++ n) "DEFAULT_TEMPLATE"
          true "root.example.com" "myapp" exampleApp ::
        [customDomainServer (fun n => "srv-captain--" ++ n)
          "DEFAULT_TEMPLATE" "myapp" exampleApp ⟨"www.example.com", true⟩] := by
  refine ⟨rfl, ?_⟩
  have h := customDomainServer_fields (fun n => "srv-captain--" ++ n)
    "DEFAULT_TEMPLATE" true "root.example.com" "myapp" exampleApp rfl
    exampleConstants (fun d => "/live/" ++ d ++ "/fullchain.pem")
    (fun d => "/live/" ++ d ++ "/privkey.pem")
  simpa [exampleApp] using h.1

/-! ## StatsClient: `getInfo` (lines 331-376)

JavaScript string primitives used by the parser, embedded with JavaScript
semantics over character lists (structural recursion, kernel-reducible). -/

/-- `String.prototype.split(sep)` for a one-character separator: splits at
every occurrence, keeping empty fragments (so a leading, trailing or
doubled separator yields empty strings). -/
def jsSplitList (sep : Char) : List Char → List (List Char)
  | [] => [[]]
  | c :: cs =>
      let r := jsSplitList sep cs
      if c = sep then [] :: r
      else
        match r with
        | [] => [[c]]
        | h :: t => (c :: h) :: t

/-- `body.split(sep)` on strings. -/
def jsSplit (sep : Char) (s : String) : List String :=
  (jsSplitList sep s.data).map List.asString

/-- JavaScript whitespace for `trim` (the characters occurring in this
protocol). -/
def isJsSpace (c : Char) : Bool :=
  c = ' ' || c = '\n' || c = '\t' || c = '\r'

/-- `String.prototype.trim()`. -/
def jsTrim (s : String) : String :=
  (((s.data.dropWhile isJsSpace).reverse.dropWhile isJsSpace).reverse).asString

/-- Decimal digits to a number, `none` when a non-digit occurs. -/
def digitsToNat (l : List Char) : Option Nat :=
  l.foldl
    (fun acc c =>
      match acc with
      | none => none
      | some n => if c.isDigit then some (n * 10 + (c.toNat - '0'.toNat)) else none)
    (some 0)

/-- `Number(x)` on the fragment this protocol produces: the empty string is
`0`, an optionally signed decimal-digit string is its value, and anything
else is `NaN`, modelled as `none` (a `NaN` is still a number: assigning it
does NOT throw, so it does not abort the parse). -/
def jsNumber (s : String) : Option Int :=
  match (jsTrim s).data with
  | [] => some 0
  | '-' :: rest =>
      if rest = [] then none else (digitsToNat rest).map (fun n => -(n : Int))
  | '+' :: rest =>
      if rest = [] then none else (digitsToNat rest).map (fun n => (n : Int))
  | l => (digitsToNat l).map (fun n => (n : Int))

/-- The `LoadBalancerInfo` model object (declared outside this source
file): the seven counters assigned by `getInfo`; each is a JavaScript
number, `none` standing for `NaN`. -/
structure LoadBalancerInfo where
  activeConnections : Option Int
  accepted : Option Int
  handled : Option Int
  total : Option Int
  reading : Option Int
  writing : Option Int
  waiting : Option Int
deriving DecidableEq, Repr

/-- Lines 348-373 of `getInfo`: the `try` block over a received `body`.
`body.split('\n')` then fixed line/token indices; accessing a missing
index yields `undefined`, whose `.trim()` call throws — the `catch`
rejects, modelled as `none`.  `Number(...)` never throws (a non-numeric
token gives `NaN`), so the parse fails only on a structurally missing
index. -/
def getInfoParse (body : String) : Option LoadBalancerInfo := do
  let lines := jsSplit '\n' body
  let line0 ← lines.get? 0
  let ac ← (jsSplit ' ' line0).get? 2
  let line2 ← lines.get? 2
  let acc ← (jsSplit ' ' line2).get? 1
  let han ← (jsSplit ' ' line2).get? 2
  let tot ← (jsSplit ' ' line2).get? 3
  let line3 ← lines.get? 3
  let rea ← (jsSplit ' ' line3).get? 1
  let wri ← (jsSplit ' ' line3).get? 3
  let wai ← (jsSplit ' ' line3).get? 5
  pure
    { activeConnections := jsNumber ac
      accepted := jsNumber acc
      handled := jsNumber han
      total := jsNumber tot
      reading := jsNumber rea
      writing := jsNumber wri
      waiting := jsNumber wai }

/-- The exact four-line body of the claim (no leading space on line 3). -/
def claimedStatsBody : String :=
  "Active connections: 3\nserver accepts handled requests\n10 10 15\nReading: 1 Writing: 2 Waiting: 0"

/-- The body as nginx's stub-status module actually emits it: line 3
carries a leading space before the three counters. -/
def nginxStatsBody : String :=
  "Active connections: 3\nserver accepts handled requests\n 10 10 15\nReading: 1 Writing: 2 Waiting: 0"

/-- C3 counterexample: on the claim's exact body, `"10 10 15".split(' ')`
has only three tokens, so `lines[2].split(' ')[3]` is `undefined` and its
`.trim()` throws: `getInfo` REJECTS this body instead of resolving to the
claimed record. -/
theorem getInfo_rejects_claimed_body :
    getInfoParse claimedStatsBody = none ∧
    getInfoParse claimedStatsBody ≠
      some ⟨some 3, some 10, some 10, some 15, some 1, some 2, some 0⟩ := by
  have h0 : getInfoParse claimedStatsBody = none := rfl
  refine ⟨h0, ?_⟩
  rw [h0]
  simp

/-- C3 amended: with the leading space nginx actually emits on the
counters line, `getInfo` resolves to
`{activeConnections: 3, accepted: 10, handled: 10, total: 15, reading: 1,
writing: 2, waiting: 0}`; the claim's exact body (without that space) is
structurally malformed for this parser — a required token index is missing
— and yields a rejection, not a partial result. -/
theorem getInfo_parses_nginx_body :
    getInfoParse nginxStatsBody =
      some ⟨some 3, some 10, some 10, some 15, some 1, some 2, some 0⟩ ∧
    getInfoParse claimedStatsBody = none := by
  exact ⟨rfl, rfl⟩

/-! ## Proxy lifecycle: `init` (lines 489-719) -/

/-- Line 20: `CONTAINER_PATH_OF_CONFIG`. -/
def CONTAINER_PATH_OF_CONFIG : String := "/etc/nginx/conf.d"

/-- Line 22: `NGINX_CONTAINER_PATH_OF_FAKE_CERTS`. -/
def NGINX_CONTAINER_PATH_OF_FAKE_CERTS : String := "/etc/nginx/fake-certs"

/-- The docker-api calls `init` issues for the nginx service, abstracted as
events (the collaborator `DockerApi` lives outside this source file). -/
inductive DockerAction where
  | createServiceOn (nodeId : String)
  | getNodeIdByServiceName
  | removeServiceByName
  | updateService (mounts : List (String × String))
deriving DecidableEq, Repr

/-- Lines 663-691: the full mount set `init` unconditionally passes to
`dockerApi.updateService`, as pairs `(containerPath, hostPath)`: static
files, fake certificates, base config, per-namespace config directory,
certificate directory, shared directory. -/
def desiredMounts (K : NginxConstants) : List (String × String) :=
  [(K.nginxStaticRootDir, K.captainStaticFilesDir),
    (NGINX_CONTAINER_PATH_OF_FAKE_CERTS, K.hostPathOfFakeCerts),
    ("/etc/nginx/nginx.conf", K.baseNginxConfigPath),
    (CONTAINER_PATH_OF_CONFIG, K.perAppNginxConfigPathBase),
    (K.letsEncryptEtcPathOnNginx, K.letsEncryptEtcPath),
    (K.nginxSharedPathOnNginx, K.nginxSharedPathOnHost)]

/-- Lines 619-704: the docker-api call sequence of `init` once the static
pages and config files are in place.  `isRunning` is the answer of
`isServiceRunningByName`, `hostingNodeId` the answer of
`getNodeIdByServiceName` when running.  If not running, the service is
created on `myNodeId` (lines 632-636); if running on a node other than
`myNodeId`, it is removed and recreated on `myNodeId` (lines 638-656);
finally `updateService` is always invoked with the full mount set
(lines 657-704). -/
def initDockerActions (K : NginxConstants) (myNodeId : String)
    (isRunning : Bool) (hostingNodeId : String) : List DockerAction :=
  let queryOrCreate :=
    if isRunning then [DockerAction.getNodeIdByServiceName]
    else [DockerAction.createServiceOn myNodeId]
  let nodeId := if isRunning then hostingNodeId else myNodeId
  let migrate :=
    if nodeId ≠ myNodeId then
      [DockerAction.removeServiceByName, DockerAction.createServiceOn myNodeId]
    else []
  queryOrCreate ++ migrate ++ [DockerAction.updateService (desiredMounts K)]

/-- C9: when the proxy service is running on node `A` and the expected
leader node is `B ≠ A`, `init` queries the hosting node, removes the
service, recreates it on `B`, and then calls `updateService`; and for
EVERY combination of running-state and hosting node, the final docker call
is `updateService` with the full desired mount set. -/
theorem init_migrates_and_always_updates (K : NginxConstants) (A B : String)
    (h : A ≠ B) :
    initDockerActions K B true A =
      [DockerAction.getNodeIdByServiceName, DockerAction.removeServiceByName,
        DockerAction.createServiceOn B,
        DockerAction.updateService (desiredMounts K)] ∧
    (∀ (isRunning : Bool) (hostingNodeId myNodeId : String),
      (initDockerActions K myNodeId isRunning hostingNodeId).getLast? =
        some (DockerAction.updateService (desiredMounts K))) := by
  constructor
  · simp [initDockerActions, h]
  · intro isRunning hostingNodeId myNodeId
    simp only [initDockerActions]
    rw [List.getLast?_concat]

/-- Witness for C9: nodes `"node-a"` and `"node-b"` with the example
constants. -/
theorem init_migrates_witness :
    ("node-a" : String) ≠ "node-b" ∧
    initDockerActions exampleConstants "node-b" true "node-a" =
      [DockerAction.getNodeIdByServiceName, DockerAction.removeServiceByName,
        DockerAction.createServiceOn "node-b",
        DockerAction.updateService (desiredMounts exampleConstants)] := by
  refine ⟨by decide, ?_⟩
  exact (init_migrates_and_always_updates exampleConstants "node-a" "node-b"
    (by decide)).1

/-! ## One reload request end to end (lines 103-193): basic-auth file side
effects versus the `.conf` swap -/

/-- Lines 131-132: `pathOfAuthInHost = configFilePathBase + '-' +
s.publicDomain + '.auth'`. -/
def authFilePath (configFilePathBase : String) (s : IServerBlockDetails) :
    String :=
  configFilePathBase ++ "-" ++ s.publicDomain ++ ".auth"

/-- A directory of files as an association list path ↦ content. -/
def lookupFile : List (String × String) → String → Option String
  | [], _ => none
  | (q, v) :: rest, p => if q = p then some v else lookupFile rest p

/-- `fs.outputFile`: create or overwrite one file. -/
def setFile : List (String × String) → String → String →
    List (String × String)
  | [], p, c => [(p, c)]
  | (q, v) :: rest, p, c =>
      if q = p then (q, c) :: rest else (q, v) :: setFile rest p c

/-- Lines 134-147: every descriptor's promise chain starts by writing that
descriptor's `.auth` file when `s.httpBasicAuth` is truthy (nonempty);
these writes all execute — `Promise.all` does not cancel the sibling
chains when one of them rejects — and are never rolled back. -/
def writeAuthFiles (configFilePathBase : String) :
    List IServerBlockDetails → List (String × String) →
    List (String × String)
  | [], disk => disk
  | s :: rest, disk =>
      writeAuthFiles configFilePathBase rest
        (if s.httpBasicAuth != "" then
          setFile disk (authFilePath configFilePathBase s) s.httpBasicAuth
        else disk)

/-- Whether an `Except` is the rejected branch. -/
def exceptIsError (e : Except String String) : Bool :=
  match e with
  | .error _ => true
  | .ok _ => false

/-- Lines 148-160: render every descriptor and concatenate
(`nginxConfigContent += rendered`) in descriptor order; one rejected
render rejects the whole `Promise.all`, so the batch is all-or-nothing. -/
def renderAll (render : IServerBlockDetails → Except String String) :
    List IServerBlockDetails → Except String String
  | [] => .ok ""
  | s :: rest =>
      match render s with
      | .error e => .error e
      | .ok r =>
          match renderAll render rest with
          | .error e => .error e
          | .ok acc => .ok (r ++ acc)

/-- The observable outcome of one drained reload request: whether its
promise was resolved (`true`) or rejected (`false`), the content of the
per-namespace `.conf` target, and the `.auth` files on disk. -/
structure ReloadResult where
  futureResolved : Bool
  conf : Option String
  authFiles : List (String × String)
deriving DecidableEq, Repr

/-- Lines 103-193, one queued reload request over the already-prepared
descriptors: all auth-file writes execute; if every render succeeds the
swap protocol replaces the `.conf` target with the concatenated content
(the swap's success postcondition, proved above on `runSteps`) and the
promise resolves; if any render rejects, `Promise.all` rejects before the
swap steps run, the `.catch` of line 186 rejects the request's promise,
and the `.conf` target is untouched.  Filesystem writes themselves are
modelled as succeeding; failures are injected through `render`. -/
def runReloadRequest (configFilePathBase : String)
    (prepped : List IServerBlockDetails)
    (render : IServerBlockDetails → Except String String)
    (conf0 : Option String) (auth0 : List (String × String)) : ReloadResult :=
  let disk := writeAuthFiles configFilePathBase prepped auth0
  match renderAll render prepped with
  | .ok content => ⟨true, some content, disk⟩
  | .error _ => ⟨false, conf0, disk⟩

theorem lookupFile_setFile_self (d : List (String × String)) (p c : String) :
    lookupFile (setFile d p c) p = some c := by
  induction d with
  | nil => simp [setFile, lookupFile]
  | cons hd tl ih =>
      obtain ⟨q, v⟩ := hd
      by_cases h : q = p <;> simp [setFile, lookupFile, h, ih]

theorem lookupFile_setFile_ne (d : List (String × String)) (p q c : String)
    (h : q ≠ p) : lookupFile (setFile d q c) p = lookupFile d p := by
  induction d with
  | nil => simp [setFile, lookupFile, h]
  | cons hd tl ih =>
      obtain ⟨r, v⟩ := hd
      by_cases hr : r = q <;> simp [setFile, lookupFile, hr, h, ih]

theorem lookupFile_writeAuthFiles_notMem (base : String)
    (servers : List IServerBlockDetails) (d : List (String × String))
    (p : String)
    (h : p ∉ (servers.filter (fun s => s.httpBasicAuth != "")).map
      (authFilePath base)) :
    lookupFile (writeAuthFiles base servers d) p = lookupFile d p := by
  induction servers generalizing d with
  | nil => rfl
  | cons t rest ih =>
      by_cases ht : t.httpBasicAuth != ""
      · have hfc : (t :: rest).filter (fun s => s.httpBasicAuth != "") =
            t :: rest.filter (fun s => s.httpBasicAuth != "") := by
          simp [List.filter_cons, ht]
        rw [hfc] at h
        simp only [List.map_cons, List.mem_cons, not_or] at h
        rw [show writeAuthFiles base (t :: rest) d =
            writeAuthFiles base rest
              (setFile d (authFilePath base t) t.httpBasicAuth) by
          simp [writeAuthFiles, ht]]
        rw [ih _ h.2, lookupFile_setFile_ne _ _ _ _ (fun he => h.1 he.symm)]
      · have hfc : (t :: rest).filter (fun s => s.httpBasicAuth != "") =
            rest.filter (fun s => s.httpBasicAuth != "") := by
          simp [List.filter_cons, ht]
        rw [hfc] at h
        rw [show writeAuthFiles base (t :: rest) d =
            writeAuthFiles base rest d by simp [writeAuthFiles, ht]]
        exact ih _ h

/-- After the auth-write phase, every descriptor with a basic-auth
credential has its `.auth` file on disk with exactly that credential
(assuming the descriptors' auth-file paths do not collide, which holds
when public domains are distinct). -/
theorem lookupFile_writeAuthFiles (base : String)
    (servers : List IServerBlockDetails) (d : List (String × String))
    (hnd : ((servers.filter (fun s => s.httpBasicAuth != "")).map
      (authFilePath base)).Nodup) :
    ∀ s ∈ servers, s.httpBasicAuth ≠ "" →
      lookupFile (writeAuthFiles base servers d) (authFilePath base s) =
        some s.httpBasicAuth := by
  induction servers generalizing d with
  | nil => intro s hs; exact absurd hs (List.not_mem_nil s)
  | cons t rest ih =>
      intro s hs hauth
      rcases List.mem_cons.mp hs with hst | hsrest
      · subst hst
        have ht : s.httpBasicAuth != "" := by simpa using hauth
        have hfc : (s :: rest).filter (fun u => u.httpBasicAuth != "") =
            s :: rest.filter (fun u => u.httpBasicAuth != "") := by
          simp [List.filter_cons, ht]
        rw [hfc, List.map_cons, List.nodup_cons] at hnd
        rw [show writeAuthFiles base (s :: rest) d =
            writeAuthFiles base rest
              (setFile d (authFilePath base s) s.httpBasicAuth) by
          simp [writeAuthFiles, ht]]
        rw [lookupFile_writeAuthFiles_notMem base rest _ _ hnd.1]
        exact lookupFile_setFile_self _ _ _
      · by_cases ht : t.httpBasicAuth != ""
        · have hfc : (t :: rest).filter (fun u => u.httpBasicAuth != "") =
              t :: rest.filter (fun u => u.httpBasicAuth != "") := by
            simp [List.filter_cons, ht]
          rw [hfc, List.map_cons, List.nodup_cons] at hnd
          rw [show writeAuthFiles base (t :: rest) d =
              writeAuthFiles base rest
                (setFile d (authFilePath base t) t.httpBasicAuth) by
            simp [writeAuthFiles, ht]]
          exact ih _ hnd.2 s hsrest hauth
        · have hfc : (t :: rest).filter (fun u => u.httpBasicAuth != "") =
              rest.filter (fun u => u.httpBasicAuth != "") := by
            simp [List.filter_cons, ht]
          rw [hfc] at hnd
          rw [show writeAuthFiles base (t :: rest) d =
              writeAuthFiles base rest d by simp [writeAuthFiles, ht]]
          exact ih _ hnd s hsrest hauth

/-- `renderAll` rejects exactly when some descriptor's render rejects. -/
theorem renderAll_isError_iff
    (render : IServerBlockDetails → Except String String)
    (l : List IServerBlockDetails) :
    exceptIsError (renderAll render l) = true ↔
      ∃ s ∈ l, exceptIsError (render s) = true := by
  induction l with
  | nil => simp [renderAll, exceptIsError]
  | cons s rest ih =>
      cases hr : render s with
      | error e => simp [renderAll, hr, exceptIsError]
      | ok r =>
          cases ha : renderAll render rest with
          | error e =>
              simp only [renderAll, hr, ha]
              rw [ha] at ih
              simp [exceptIsError, hr] at ih ⊢
              exact ih
          | ok acc =>
              simp only [renderAll, hr, ha]
              rw [ha] at ih
              simp [exceptIsError, hr] at ih ⊢
              exact ih

/-- C10: for a reload request over descriptors with non-colliding auth-file
paths, (i) if any descriptor's render rejects, the request's promise is
rejected, the per-namespace `.conf` target is left unchanged, and yet every
descriptor with a basic-auth credential has its `.auth` file on disk
holding the new credential (the auth writes are side effects of the render
phase and are not rolled back); and (ii) the `.conf` target is modified
only when every render has succeeded: any outcome function under which the
`.conf` content changed had no rejecting render. -/
theorem reloadRequest_auth_writes_not_rolled_back
    (configFilePathBase : String) (prepped : List IServerBlockDetails)
    (render : IServerBlockDetails → Except String String)
    (conf0 : Option String) (auth0 : List (String × String))
    (hnd : ((prepped.filter (fun s => s.httpBasicAuth != "")).map
      (authFilePath configFilePathBase)).Nodup)
    (hfail : ∃ s ∈ prepped, exceptIsError (render s) = true) :
    (runReloadRequest configFilePathBase prepped render conf0
        auth0).futureResolved = false ∧
    (runReloadRequest configFilePathBase prepped render conf0 auth0).conf =
      conf0 ∧
    (∀ s ∈ prepped, s.httpBasicAuth ≠ "" →
      lookupFile
        (runReloadRequest configFilePathBase prepped render conf0
          auth0).authFiles
        (authFilePath configFilePathBase s) = some s.httpBasicAuth) ∧
    (∀ render2 : IServerBlockDetails → Except String String,
      (runReloadRequest configFilePathBase prepped render2 conf0
          auth0).conf ≠ conf0 →
      ∀ s ∈ prepped, exceptIsError (render2 s) = false) := by
  have herr : exceptIsError (renderAll render prepped) = true :=
    (renderAll_isError_iff render prepped).mpr hfail
  obtain ⟨e, he⟩ : ∃ e, renderAll render prepped = .error e := by
    cases ha : renderAll render prepped with
    | error e => exact ⟨e, rfl⟩
    | ok r => rw [ha] at herr; exact absurd herr (by simp [exceptIsError])
  refine ⟨?_, ?_, ?_, ?_⟩
  · simp [runReloadRequest, he]
  · simp [runReloadRequest, he]
  · intro s hs hauth
    have hw := lookupFile_writeAuthFiles configFilePathBase prepped auth0
      hnd s hs hauth
    simpa [runReloadRequest, he] using hw
  · intro render2 hconf s hs
    cases ha : renderAll render2 prepped with
    | error e2 => exact absurd (by simp [runReloadRequest, ha]) hconf
    | ok r =>
        by_contra hne
        have : exceptIsError (renderAll render2 prepped) = true :=
          (renderAll_isError_iff render2 prepped).mpr
            ⟨s, hs, by simpa using hne⟩
        rw [ha] at this
        exact absurd this (by simp [exceptIsError])

/-- Witness inputs for C10: two rendered descriptors, the first with a
basic-auth credential whose render succeeds, the second whose render
rejects. -/
def witnessAuthServer : IServerBlockDetails :=
  { hasSsl := false
    publicDomain := "good.example.com"
    localDomain := "srv-captain--good"
    forceSsl := false
    websocketSupport := false
    containerHttpPort := 80
    nginxConfigTemplate := "T"
    httpBasicAuth := "joe:newhash"
    staticWebRoot := some "/usr/share/nginx/special/good.example.com"
    customErrorPagesDirectory := some "/usr/share/nginx/default"
    crtPath := none
    keyPath := none
    httpBasicAuthPath := none }

/-- Second witness descriptor: its render rejects. -/
def witnessFailingServer : IServerBlockDetails :=
  { hasSsl := false
    publicDomain := "bad.example.com"
    localDomain := "srv-captain--bad"
    forceSsl := false
    websocketSupport := false
    containerHttpPort := 80
    nginxConfigTemplate := "T"
    httpBasicAuth := ""
    staticWebRoot := some "/usr/share/nginx/special/bad.example.com"
    customErrorPagesDirectory := some "/usr/share/nginx/default"
    crtPath := none
    keyPath := none
    httpBasicAuthPath := none }

/-- The witness render outcomes: the second descriptor's template fails. -/
def witnessRender (s : IServerBlockDetails) : Except String String :=
  if s.publicDomain = "bad.example.com" then .error "render failed"
  else .ok "server-block"

/-- Witness for C10: with the old `.conf` in place and a failing second
render, the request's promise is rejected, `.conf` is unchanged, and the
first descriptor's `.auth` file holds the new credential. -/
theorem reloadRequest_auth_writes_witness :
    (([witnessAuthServer, witnessFailingServer].filter
        (fun s => s.httpBasicAuth != "")).map
      (authFilePath "/captain/nginx/conf.d/captain")).Nodup ∧
    (∃ s ∈ [witnessAuthServer, witnessFailingServer],
      exceptIsError (witnessRender s) = true) ∧
    (runReloadRequest "/captain/nginx/conf.d/captain"
        [witnessAuthServer, witnessFailingServer] witnessRender
        (some "OLD CONF") []).futureResolved = false ∧
    (runReloadRequest "/captain/nginx/conf.d/captain"
        [witnessAuthServer, witnessFailingServer] witnessRender
        (some "OLD CONF") []).conf = some "OLD CONF" ∧
    lookupFile
        (runReloadRequest "/captain/nginx/conf.d/captain"
          [witnessAuthServer, witnessFailingServer] witnessRender
          (some "OLD CONF") []).authFiles
        (authFilePath "/captain/nginx/conf.d/captain" witnessAuthServer) =
      some "joe:newhash" := by
  have h := reloadRequest_auth_writes_not_rolled_back
    "/captain/nginx/conf.d/captain"
    [witnessAuthServer, witnessFailingServer] witnessRender
    (some "OLD CONF") [] (by decide)
    ⟨witnessFailingServer, by decide, by decide⟩
  refine ⟨by decide, ⟨witnessFailingServer, by decide, by decide⟩,
    h.1, h.2.1, ?_⟩
  have hw := h.2.2.1 witnessAuthServer (by decide) (by decide)
  simpa using hw

end LoadBalancerManager
